import Mathlib

/-!
Verification development for the chakra-ui style-resolution and
disclosure/tooltip interaction code.

JavaScript values appearing in style objects are modelled by `CVal`;
style objects ("fragments") are association lists from property names to
values, with object spread modelled by `mergeFrag` (later entries
override earlier ones on key collision, as in `{...a, ...b}`).
-/

/-- A JavaScript value as it occurs in style objects: strings, numbers,
`undefined`, `null`, and nested objects (association lists in insertion
order). -/
inductive CVal where
  | str (s : String)
  | num (q : Rat)
  | undef
  | null
  | obj (entries : List (String × CVal))
deriving Repr

/-- A style fragment: a JavaScript object mapping property names (or
pseudo-selector keys) to values. -/
abbrev Fragment := List (String × CVal)

/-- Value of a key in an association list, later (rightmost) entries
taking precedence — the value an equally-keyed JavaScript object would
hold for that key. -/
def lookupLast {β : Type} : List (String × β) → String → Option β
  | [], _ => none
  | e :: rest, k =>
    match lookupLast rest k with
    | some w => some w
    | none => if k = e.1 then some e.2 else none

/-- JavaScript property assignment `o[k] = v` on an object represented as
an association list: replaces the value at an existing key in place,
otherwise appends the key at the end. -/
def setKey (f : Fragment) (k : String) (v : CVal) : Fragment :=
  if f.any (fun e => e.1 = k) then
    f.map (fun e => if e.1 = k then (k, v) else e)
  else
    f ++ [(k, v)]

/-- JavaScript object spread `{...a, ...b}`: entries of `b` assigned over
`a` in order, so `b` overrides `a` on key collision. -/
def mergeFrag (a b : Fragment) : Fragment :=
  b.foldl (fun acc e => setKey acc e.1 e.2) a

/-- Embedding of JavaScript `String.prototype.split` with a single-character
separator, at the character-list level: `"a.b".split(".") = ["a","b"]`,
`"".split(".") = [""]`. -/
def jsSplit (sep : Char) : List Char → List (List Char)
  | [] => [[]]
  | c :: rest =>
    match jsSplit sep rest with
    | [] => [[]]
    | w :: ws => if c = sep then [] :: w :: ws else (c :: w) :: ws

/-- The dotted-path pieces of a token key, as produced by `key.split('.')`
in styled-system's `get`. -/
def pathParts (key : String) : List String :=
  (jsSplit '.' key.data).map String.mk

namespace StyledSystem

/-- JavaScript truthiness of a `CVal` (used by `get`'s traversal guard
`obj = obj ? obj[key[p]] : undef`). -/
def truthy : CVal → Bool
  | .str s => s ≠ ""
  | .num q => q ≠ 0
  | .undef => false
  | .null => false
  | .obj _ => true

/-- JavaScript member access `v[k]`: defined for objects, `undefined` for
everything else. -/
def index (v : CVal) (k : String) : Option CVal :=
  match v with
  | .obj l => lookupLast l k
  | _ => none

/-- The traversal loop of styled-system's `get`: starting from the object,
walk the path pieces, with `undefined` (here `none`) once the current
value is falsy or the key is missing. -/
def getLoop : Option CVal → List String → Option CVal
  | o, [] => o
  | o, p :: ps =>
    getLoop
      (match o with
       | some v => if truthy v then index v p else none
       | none => none) ps

/-- styled-system's `get(obj, key, def)`: split `key` on dots, traverse,
and return `def` when the result is `undefined`. -/
def get (obj : CVal) (key : String) (dflt : CVal) : CVal :=
  match getLoop (some obj) (pathParts key) with
  | some CVal.undef => dflt
  | none => dflt
  | some v => v

/-- Spec-side definition of "the token path is present in the theme
table": a straight recursive walk of the nested mapping. -/
def findPath : CVal → List String → Option CVal
  | v, [] => some v
  | .obj l, p :: ps =>
    (match lookupLast l p with
     | some w => findPath w ps
     | none => none)
  | _, _ :: _ => none

end StyledSystem

/-- `${v}` string interpolation of a JavaScript value, as used in the
template literals building `boxShadow` values. -/
def cvalToString : CVal → String
  | .str s => s
  | .num q => toString q
  | .undef => "undefined"
  | .null => "null"
  | .obj _ => "[object Object]"

/-- The color-mode enumeration provided by the ColorModeProvider
(`Props["value"]` is the union type `"light" | "dark"`). -/
inductive ColorMode where
  | light
  | dark
deriving Repr, DecidableEq

namespace InputStyles

/-- The slice of the theme object the Input style functions consult
(`theme.colors`). -/
structure Theme where
  colors : CVal

/-- The props consumed by `useInputStyle` and the per-variant style
functions of `Input/styles.ts`. `size` is an arbitrary optional string:
the source casts it with `props.size as InputSizes`, so any value can
flow through. -/
structure InputStyleProps where
  theme : Theme
  colorMode : ColorMode
  focusBorderColor : String
  errorBorderColor : String
  variant : String
  size : Option String := none
  isFullWidth : Bool := false

/-- The shared `readOnly` fragment. -/
def readOnly : Fragment :=
  [("_readOnly",
    CVal.obj
      [("bg", CVal.str "transparent"),
       ("boxShadow", CVal.str "none !important"),
       ("userSelect", CVal.str "all")])]

/-- `outlinedStyle` from `Input/styles.ts`. -/
def outlinedStyle (props : InputStyleProps) : Fragment :=
  let bg : CVal :=
    match props.colorMode with
    | .light => .str "white"
    | .dark => .str "whiteAlpha.100"
  let borderColor : CVal :=
    match props.colorMode with
    | .light => .str "inherit"
    | .dark => .str "whiteAlpha.50"
  let hoverColor : CVal :=
    match props.colorMode with
    | .light => .str "gray.300"
    | .dark => .str "whiteAlpha.200"
  let focusBC : CVal :=
    StyledSystem.get props.theme.colors props.focusBorderColor
      (CVal.str props.focusBorderColor)
  let errorBC : CVal :=
    StyledSystem.get props.theme.colors props.errorBorderColor
      (CVal.str props.errorBorderColor)
  mergeFrag readOnly
    [("border", CVal.str "1px"),
     ("borderColor", borderColor),
     ("bg", bg),
     ("_hover", CVal.obj [("borderColor", hoverColor)]),
     ("_disabled",
      CVal.obj [("opacity", CVal.str "0.4"), ("cursor", CVal.str "not-allowed")]),
     ("_focus",
      CVal.obj
        [("borderColor", focusBC),
         ("boxShadow", CVal.str ("0 0 0 1px " ++ cvalToString focusBC))]),
     ("_invalid",
      CVal.obj
        [("borderColor", errorBC),
         ("boxShadow", CVal.str ("0 0 0 1px " ++ cvalToString errorBC))])]

/-- `filledStyle` from `Input/styles.ts`. -/
def filledStyle (props : InputStyleProps) : Fragment :=
  let bg : CVal :=
    match props.colorMode with
    | .light => .str "gray.100"
    | .dark => .str "whiteAlpha.50"
  let hoverColor : CVal :=
    match props.colorMode with
    | .light => .str "gray.200"
    | .dark => .str "whiteAlpha.100"
  let focusBC : CVal :=
    StyledSystem.get props.theme.colors props.focusBorderColor
      (CVal.str props.focusBorderColor)
  let errorBC : CVal :=
    StyledSystem.get props.theme.colors props.errorBorderColor
      (CVal.str props.errorBorderColor)
  mergeFrag readOnly
    [("border", CVal.str "2px"),
     ("borderColor", CVal.str "transparent"),
     ("bg", bg),
     ("_hover", CVal.obj [("bg", hoverColor)]),
     ("_disabled",
      CVal.obj [("opacity", CVal.str "0.4"), ("cursor", CVal.str "not-allowed")]),
     ("_focus",
      CVal.obj [("bg", CVal.str "transparent"), ("borderColor", focusBC)]),
     ("_invalid", CVal.obj [("borderColor", errorBC)])]

/-- `flushedStyle` from `Input/styles.ts`. -/
def flushedStyle (props : InputStyleProps) : Fragment :=
  let focusBC : CVal :=
    StyledSystem.get props.theme.colors props.focusBorderColor
      (CVal.str props.focusBorderColor)
  let errorBC : CVal :=
    StyledSystem.get props.theme.colors props.errorBorderColor
      (CVal.str props.errorBorderColor)
  mergeFrag readOnly
    [("borderBottom", CVal.str "2px"),
     ("borderColor", CVal.str "inherit"),
     ("rounded", CVal.num 0),
     ("px", CVal.undef),
     ("bg", CVal.str "transparent"),
     ("_focus", CVal.obj [("borderColor", focusBC)]),
     ("_invalid", CVal.obj [("borderColor", errorBC)])]

/-- `unstyledStyle` from `Input/styles.ts`. -/
def unstyledStyle : Fragment :=
  [("bg", CVal.str "transparent"),
   ("px", CVal.undef),
   ("height", CVal.undef)]

/-- `variantProps` from `Input/styles.ts`, paired with the number of
console diagnostics the call emits (the source emits none on any branch,
including the `default` one, which silently returns `{}`). -/
def variantProps (props : InputStyleProps) : Fragment × Nat :=
  match props.variant with
  | "flushed" => (flushedStyle props, 0)
  | "unstyled" => (unstyledStyle, 0)
  | "filled" => (filledStyle props, 0)
  | "outline" => (outlinedStyle props, 0)
  | _ => ([], 0)

/-- `baseProps` from `Input/styles.ts`. -/
def baseProps : Fragment :=
  [("display", CVal.str "flex"),
   ("alignItems", CVal.str "center"),
   ("position", CVal.str "relative"),
   ("transition", CVal.str "all 0.2s"),
   ("outline", CVal.str "none")]

/-- The `inputSizes` table from `Input/styles.ts`. -/
def inputSizes : List (String × Fragment) :=
  [("lg",
    [("fontSize", CVal.str "lg"),
     ("px", CVal.num 4),
     ("height", CVal.str "12"),
     ("lineHeight", CVal.str "3rem"),
     ("rounded", CVal.str "md")]),
   ("md",
    [("fontSize", CVal.str "md"),
     ("px", CVal.num 4),
     ("height", CVal.str "10"),
     ("lineHeight", CVal.str "2.5rem"),
     ("rounded", CVal.str "md")]),
   ("sm",
    [("fontSize", CVal.str "sm"),
     ("px", CVal.num 3),
     ("height", CVal.str "8"),
     ("lineHeight", CVal.str "2rem"),
     ("rounded", CVal.str "sm")])]

/-- `sizeProps` from `Input/styles.ts`: `inputSizes[props.size]`, which is
`undefined` (`none`) when `size` is unset or not a key of the table. -/
def sizeProps (props : InputStyleProps) : Option Fragment :=
  match props.size with
  | some s => lookupLast inputSizes s
  | none => none

/-- `useInputStyle` from `Input/styles.ts`: the object literal
`{width: ..., ...baseProps, ...sizeProps(_props), ...variantProps(_props)}`
(spreading `undefined` contributes nothing). -/
def useInputStyle (props : InputStyleProps) : Fragment :=
  mergeFrag
    (mergeFrag
      (mergeFrag
        [("width", if props.isFullWidth then CVal.str "100%" else CVal.undef)]
        baseProps)
      ((sizeProps props).getD []))
    (variantProps props).1

end InputStyles

namespace ButtonStyles

/-- The props the Button style functions read off the styled component:
`buttonColor`/`buttonVariant`/`buttonSize` (strings), the ui `mode`
(indexed as a raw string key into `{light:…, dark:…}` tables),
`isFullWidth`, and the ambient `theme` consulted by `themeGet`. -/
structure ButtonStyleProps where
  theme : CVal
  mode : String
  buttonColor : String
  buttonVariant : String
  buttonSize : String
  isFullWidth : Bool := false

/-- `@styled-system/theme-get`'s `themeGet(path)(props)`:
`get(props.theme, path, null)` (the default fallback is `null`). -/
def themeGet (path : String) (props : ButtonStyleProps) : CVal :=
  StyledSystem.get props.theme path CVal.null

/-- JavaScript object spread of an arbitrary value: objects contribute
their entries, strings contribute their indexed characters, and
`null`/`undefined`/numbers contribute nothing. -/
def spreadVal : CVal → Fragment
  | .obj l => l
  | .str s => (s.data.enum).map (fun p => (toString p.1, CVal.str (String.mk [p.2])))
  | _ => []

/-- `baseStyle` from the Button module. -/
def baseStyle : Fragment :=
  [("display", CVal.str "inline-flex"),
   ("alignItems", CVal.str "center"),
   ("justifyContent", CVal.str "center"),
   ("transition", CVal.str "all 250ms"),
   ("userSelect", CVal.str "none"),
   ("position", CVal.str "relative"),
   ("whiteSpace", CVal.str "nowrap"),
   ("verticalAlign", CVal.str "middle"),
   ("lineHeight", CVal.str "1.2")]

/-- `unstyledStyle` from the Button module. -/
def unstyledStyle : Fragment :=
  [("userSelect", CVal.str "inherit"),
   ("background", CVal.str "none"),
   ("border", CVal.num 0),
   ("color", CVal.str "inherit"),
   ("display", CVal.str "inline"),
   ("font", CVal.str "inherit"),
   ("lineHeight", CVal.str "inherit"),
   ("margin", CVal.num 0),
   ("padding", CVal.num 0),
   ("textAlign", CVal.str "inherit")]

def hoverSelector : String := "&:not([aria-disabled=\"true\"]):hover"

def activeSelector : String := "&:not([aria-disabled=\"true\"]):active"

def disabledSelector : String := "&[aria-disabled=\"true\"]"

def focusSelector : String := "&:focus"

/-- `themedSolidColors(props)`: the `{light: …, dark: …}` table for the
gray/neutral solid button. -/
def themedSolidColors (props : ButtonStyleProps) : Fragment :=
  [("light",
    CVal.obj
      [("color", CVal.str "inherit"),
       ("backgroundColor", themeGet "colors.gray.100" props),
       (hoverSelector, CVal.obj [("backgroundColor", themeGet "colors.gray.200" props)]),
       (activeSelector, CVal.obj [("backgroundColor", themeGet "colors.gray.300" props)])]),
   ("dark",
    CVal.obj
      [("color", themeGet "colors.alpha.900" props),
       ("backgroundColor", themeGet "colors.alpha.200" props),
       (hoverSelector, CVal.obj [("backgroundColor", themeGet "colors.alpha.300" props)]),
       (activeSelector, CVal.obj [("backgroundColor", themeGet "colors.alpha.400" props)])])]

/-- `solidColorStyle`: the solid-variant fragment, with the gray-scheme
mode-specific override spread over it
(`...(props.buttonColor === "gray" && themedSolidColors(props)[props.mode])`). -/
def solidColorStyle (props : ButtonStyleProps) : Fragment :=
  mergeFrag
    [("color", CVal.str "#fff"),
     ("backgroundColor", themeGet ("colors." ++ props.buttonColor ++ ".500") props),
     (hoverSelector,
      CVal.obj [("backgroundColor", themeGet ("colors." ++ props.buttonColor ++ ".600") props)]),
     (activeSelector,
      CVal.obj [("backgroundColor", themeGet ("colors." ++ props.buttonColor ++ ".700") props)])]
    (if props.buttonColor = "gray" then
       spreadVal ((lookupLast (themedSolidColors props) props.mode).getD CVal.undef)
     else [])

/-- `themedGhostButton(props)`: the `{light: …, dark: …}` table for the
gray/neutral ghost button. -/
def themedGhostButton (props : ButtonStyleProps) : Fragment :=
  [("light",
    CVal.obj
      [("color", CVal.str "inherit"),
       (hoverSelector, CVal.obj [("backgroundColor", themeGet "colors.gray.100" props)]),
       (activeSelector, CVal.obj [("backgroundColor", themeGet "colors.gray.200" props)])]),
   ("dark",
    CVal.obj
      [("color", themeGet "colors.alpha.900" props),
       (hoverSelector, CVal.obj [("backgroundColor", themeGet "colors.alpha.200" props)]),
       (activeSelector, CVal.obj [("backgroundColor", themeGet "colors.alpha.300" props)])])]

/-- `ghostColorStyle` from the Button module. -/
def ghostColorStyle (props : ButtonStyleProps) : Fragment :=
  mergeFrag
    [("color", themeGet ("colors." ++ props.buttonColor ++ ".500") props),
     ("backgroundColor", CVal.str "transparent"),
     (hoverSelector,
      CVal.obj [("backgroundColor", themeGet ("colors." ++ props.buttonColor ++ ".50") props)]),
     (activeSelector,
      CVal.obj [("backgroundColor", themeGet ("colors." ++ props.buttonColor ++ ".100") props)])]
    (if props.buttonColor = "gray" then
       spreadVal ((lookupLast (themedGhostButton props) props.mode).getD CVal.undef)
     else [])

/-- `outlineColorStyle`: `css(ghostColorStyle(props), {...})`, the second
argument overriding the first. -/
def outlineColorStyle (props : ButtonStyleProps) : Fragment :=
  mergeFrag (ghostColorStyle props)
    (mergeFrag
      [("borderWidth", CVal.num 1),
       ("borderColor", themeGet ("colors." ++ props.buttonColor ++ ".200") props)]
      (if props.buttonColor = "gray" then
         [("borderColor",
           if props.mode = "dark" then themeGet "colors.alpha.400" props
           else themeGet ("colors." ++ props.buttonColor ++ ".200") props)]
       else []))

/-- `linkStyle` from the Button module. -/
def linkStyle (props : ButtonStyleProps) : Fragment :=
  [("padding", CVal.num 0),
   ("height", CVal.str "auto"),
   ("lineHeight", CVal.str "normal"),
   ("color", themeGet ("colors." ++ props.buttonColor ++ ".600") props),
   (hoverSelector, CVal.obj [("textDecoration", CVal.str "underline")]),
   (activeSelector, CVal.obj [("color", themeGet ("colors." ++ props.buttonColor ++ ".700") props)])]

/-- `variantStyle`: the variant dispatch switch, paired with the number of
console diagnostics emitted — the `default` branch runs
`console.warn("passed variant prop is invalid ")` once and returns `{}`. -/
def variantStyle (props : ButtonStyleProps) : Fragment × Nat :=
  match props.buttonVariant with
  | "solid" => (solidColorStyle props, 0)
  | "outline" => (outlineColorStyle props, 0)
  | "ghost" => (ghostColorStyle props, 0)
  | "link" => (linkStyle props, 0)
  | "unstyled" => (unstyledStyle, 0)
  | _ => ([], 1)

/-- `sizeStyle`:
`css({...themeGet('sizes.button.' + buttonSize)(props), ...(isFullWidth && {width:'100%'})})`. -/
def sizeStyle (props : ButtonStyleProps) : Fragment :=
  mergeFrag
    (spreadVal (themeGet ("sizes.button." ++ props.buttonSize) props))
    (if props.isFullWidth then [("width", CVal.str "100%")] else [])

/-- `disabledStyle` from the Button module. -/
def disabledStyle : Fragment :=
  [(disabledSelector,
    CVal.obj
      [("opacity", CVal.num 0.5),
       ("cursor", CVal.str "not-allowed"),
       ("boxShadow", CVal.str "none")])]

/-- `focusStyle` from the Button module. -/
def focusStyle (props : ButtonStyleProps) : Fragment :=
  [(focusSelector, CVal.obj [("boxShadow", themeGet "shadows.focusring" props)])]

/-- The style of `StyledButton`: the emotion template interpolates
`baseStyle`, `disabledStyle`, `focusStyle`, `sizeStyle`, `variantStyle`
in that order, later chunks overriding earlier ones on the same key. -/
def styledButtonStyle (props : ButtonStyleProps) : Fragment :=
  mergeFrag
    (mergeFrag
      (mergeFrag
        (mergeFrag baseStyle disabledStyle)
        (focusStyle props))
      (sizeStyle props))
    (variantStyle props).1

end ButtonStyles

namespace Disclosure

/-- `DisclosureHookProps`: config of `useDisclosure`. The `onOpen`/`onClose`
callbacks are modelled by whether one is supplied; the state records how
often each has been invoked. -/
structure DisclosureHookProps where
  isOpen : Option Bool := none
  defaultIsOpen : Option Bool := none
  hasOnOpen : Bool := false
  hasOnClose : Bool := false

/-- The observable state of one `useDisclosure` instance:
`isOpenState` is the internal `React.useState` cell, `isControlled` the
construction-time controllability flag, `prevRef` the `usePrevious` ref
cell, and the two counters the number of callback invocations so far. -/
structure DisclosureState where
  isOpenState : Bool
  isControlled : Bool
  prevRef : Option Bool := none
  onOpenCalls : Nat := 0
  onCloseCalls : Nat := 0

/-- Construction of the hook state.
`isOpenState` starts as `props.defaultIsOpen || false`.
`isControlled` — modelled from the spec: `useControllable` is not under
`src/`; the spec states it is computed once, at construction, as "was an
external `isOpen` value supplied", held in a ref and never re-derived. -/
def useDisclosureInit (props : DisclosureHookProps) : DisclosureState :=
  { isOpenState := props.defaultIsOpen.getD false
    isControlled := props.isOpen.isSome }

/-- The externally visible `isOpen` (`Boolean(isOpen)` in the return
object). Modelled from the spec: when controlled, the visible state is
driven entirely by the external `isOpen` value (internal state ignored);
when uncontrolled it is the internal state. An absent external value
renders as `false` under `Boolean(...)`. -/
def isOpenValue (props : DisclosureHookProps) (s : DisclosureState) : Bool :=
  if s.isControlled then props.isOpen.getD false else s.isOpenState

/-- The externally visible `prevIsOpen` (`Boolean(prevIsOpen)`). -/
def prevIsOpen (s : DisclosureState) : Bool :=
  s.prevRef.getD false

/-- Modelled from the spec: `usePrevious` is not under `src/`; the spec
states `prevIsOpen` exposes the value of `isOpen` from immediately before
the latest state transition, so the ref is refreshed exactly when the
visible value changes. -/
def trackPrev (props : DisclosureHookProps) (old new : DisclosureState) :
    DisclosureState :=
  if isOpenValue props new = isOpenValue props old then new
  else { new with prevRef := some (isOpenValue props old) }

/-- `onClose`: `if (!isControlled) setIsOpen(false); if (onCloseProp) onCloseProp()`. -/
def onClose (props : DisclosureHookProps) (s : DisclosureState) : DisclosureState :=
  trackPrev props s
    { s with
      isOpenState := if s.isControlled then s.isOpenState else false
      onCloseCalls := s.onCloseCalls + (if props.hasOnClose then 1 else 0) }

/-- `onOpen`: `if (!isControlled) setIsOpen(true); if (onOpenProp) onOpenProp()`. -/
def onOpen (props : DisclosureHookProps) (s : DisclosureState) : DisclosureState :=
  trackPrev props s
    { s with
      isOpenState := if s.isControlled then s.isOpenState else true
      onOpenCalls := s.onOpenCalls + (if props.hasOnOpen then 1 else 0) }

/-- `onToggle`: `const action = isOpen ? onClose : onOpen; action()`. -/
def onToggle (props : DisclosureHookProps) (s : DisclosureState) : DisclosureState :=
  if isOpenValue props s then onClose props s else onOpen props s

/-- One of the three operations returned by the hook. -/
inductive DiscOp where
  | doOpen
  | doClose
  | doToggle
deriving Repr, DecidableEq

/-- Run one operation against the hook state; the props are passed per
step so a later render may supply a different (even absent) external
`isOpen` prop. -/
def discStep (props : DisclosureHookProps) (s : DisclosureState) (op : DiscOp) :
    DisclosureState :=
  match op with
  | .doOpen => onOpen props s
  | .doClose => onClose props s
  | .doToggle => onToggle props s

end Disclosure

namespace Tooltip

open Disclosure

/-- The slice of `UseTooltipProps` the timing logic reads, plus the
disclosure config forwarded to `useDisclosure`. -/
structure UseTooltipProps where
  openDelay : Nat := 0
  closeDelay : Nat := 0
  isDisabled : Bool := false
  isOpen : Option Bool := none
  defaultIsOpen : Option Bool := none
  hasOnOpen : Bool := false
  hasOnClose : Bool := false

/-- The disclosure config `useTooltip` passes to `useDisclosure`. -/
def discProps (p : UseTooltipProps) : DisclosureHookProps :=
  { isOpen := p.isOpen
    defaultIsOpen := p.defaultIsOpen
    hasOnOpen := p.hasOnOpen
    hasOnClose := p.hasOnClose }

/-- Which ref a scheduled timer belongs to: `enterTimeout` runs `onOpen`,
`exitTimeout` runs `onClose`. -/
inductive TimerKind where
  | enterT
  | exitT
deriving Repr, DecidableEq

/-- A pending `window.setTimeout`: its id, absolute due time, and which
callback it runs. -/
structure Timer where
  id : Nat
  due : Nat
  kind : TimerKind
deriving Repr, DecidableEq

/-- The state of one `useTooltip` instance: the wrapped disclosure state,
the timers currently pending in the host, the two id refs
(`enterTimeout.current` / `exitTimeout.current` — note the source never
resets them after a timer fires or is cleared), and the id counter. -/
structure TooltipState where
  disc : DisclosureState
  pending : List Timer := []
  enterTimeout : Option Nat := none
  exitTimeout : Option Nat := none
  nextId : Nat := 1

def useTooltipInit (p : UseTooltipProps) : TooltipState :=
  { disc := useDisclosureInit (discProps p) }

/-- `openWithDelay` at time `now`:
`if (!isDisabled) enterTimeout.current = window.setTimeout(onOpen, openDelay)`.
It schedules the open and overwrites the ref; it does not clear any
pending timer. -/
def openWithDelay (p : UseTooltipProps) (now : Nat) (s : TooltipState) :
    TooltipState :=
  if p.isDisabled then s
  else
    { s with
      pending := s.pending ++ [⟨s.nextId, now + p.openDelay, TimerKind.enterT⟩]
      enterTimeout := some s.nextId
      nextId := s.nextId + 1 }

/-- `closeWithDelay` at time `now`:
`if (enterTimeout.current) clearTimeout(enterTimeout.current);`
`exitTimeout.current = window.setTimeout(onClose, closeDelay)`. -/
def closeWithDelay (p : UseTooltipProps) (now : Nat) (s : TooltipState) :
    TooltipState :=
  let pending :=
    match s.enterTimeout with
    | some i => s.pending.filter (fun tm => tm.id ≠ i)
    | none => s.pending
  { s with
    pending := pending ++ [⟨s.nextId, now + p.closeDelay, TimerKind.exitT⟩]
    exitTimeout := some s.nextId
    nextId := s.nextId + 1 }

/-- Run the callback of a fired timer. -/
def fireTimer (p : UseTooltipProps) (tm : Timer) (s : TooltipState) :
    TooltipState :=
  match tm.kind with
  | .enterT => { s with disc := onOpen (discProps p) s.disc }
  | .exitT => { s with disc := onClose (discProps p) s.disc }

/-- Pick the pending timer that fires next: smallest due time, earliest
scheduled on a tie (the list is kept in scheduling order). -/
def pickMin : List Timer → Option (Timer × List Timer)
  | [] => none
  | tm :: rest =>
    match pickMin rest with
    | none => some (tm, [])
    | some (m, others) =>
      if tm.due ≤ m.due then some (tm, rest) else some (m, tm :: others)

/-- Fire every pending timer due at or before `bound`, in firing order
(fuel is the pending count, which firing decreases). -/
def fireDueAux (p : UseTooltipProps) (bound : Nat) :
    Nat → TooltipState → TooltipState
  | 0, s => s
  | fuel + 1, s =>
    match pickMin s.pending with
    | none => s
    | some (tm, rest) =>
      if tm.due ≤ bound then
        fireDueAux p bound fuel (fireTimer p tm { s with pending := rest })
      else s

def fireDue (p : UseTooltipProps) (bound : Nat) (s : TooltipState) :
    TooltipState :=
  fireDueAux p bound s.pending.length s

/-- Fire every remaining pending timer in firing order (letting the clock
run to the end). -/
def fireAllAux (p : UseTooltipProps) : Nat → TooltipState → TooltipState
  | 0, s => s
  | fuel + 1, s =>
    match pickMin s.pending with
    | none => s
    | some (tm, rest) => fireAllAux p fuel (fireTimer p tm { s with pending := rest })

def fireAll (p : UseTooltipProps) (s : TooltipState) : TooltipState :=
  fireAllAux p s.pending.length s

/-- The externally triggered inputs of the timing logic: an open trigger
(pointer-enter / focus-in, running `openWithDelay`) and a close trigger
(pointer-leave, blur, click, Escape…, running `closeWithDelay`). -/
inductive TooltipEvent where
  | openTrigger
  | closeTrigger
deriving Repr, DecidableEq

/-- Process one timestamped external event: first fire the timers that
came due, then run the handler. -/
def tooltipEventStep (p : UseTooltipProps) (s : TooltipState)
    (e : Nat × TooltipEvent) : TooltipState :=
  let s₁ := fireDue p e.1 s
  match e.2 with
  | .openTrigger => openWithDelay p e.1 s₁
  | .closeTrigger => closeWithDelay p e.1 s₁

/-- Run a timestamped event timeline from construction, then let every
remaining timer fire. -/
def runTooltip (p : UseTooltipProps) (events : List (Nat × TooltipEvent)) :
    TooltipState :=
  fireAll p (events.foldl (tooltipEventStep p) (useTooltipInit p))

end Tooltip

namespace Avatar

/-- JavaScript `s.charAt(0)`: the one-character string holding the first
character, or the empty string on empty input (character-list level). -/
def charAt0 : List Char → List Char
  | [] => []
  | c :: _ => [c]

/-- `getInitials` from `Avatar.tsx`:
`const [firstName, lastName] = name.split(" ");`
`if (firstName && lastName) return firstName.charAt(0) + lastName.charAt(0);`
`else return firstName.charAt(0);`
(`firstName && lastName` is truthy exactly when both strings are
non-empty; a missing `lastName` is `undefined`, hence falsy). -/
def getInitials (name : List Char) : List Char :=
  match jsSplit ' ' name with
  | [] => []
  | firstName :: rest =>
    match rest with
    | [] => charAt0 firstName
    | lastName :: _ =>
      if firstName ≠ [] ∧ lastName ≠ [] then
        charAt0 firstName ++ charAt0 lastName
      else charAt0 firstName

/-- `getInitials` on `String`s. -/
def getInitialsS (name : String) : String :=
  String.mk (getInitials name.data)

/-- Spec-side: the text before the first space (the first space-separated
word). -/
def specFirstWord : List Char → List Char
  | [] => []
  | c :: rest => if c = ' ' then [] else c :: specFirstWord rest

/-- Spec-side: the text after the first space (empty when there is no
space). -/
def specAfterFirstSpace : List Char → List Char
  | [] => []
  | c :: rest => if c = ' ' then rest else specAfterFirstSpace rest

/-- Spec-side: the second space-separated word. -/
def specSecondWord (name : List Char) : List Char :=
  specFirstWord (specAfterFirstSpace name)

/-- Helper mirroring the tail of `jsSplit ' '`: the words after the first
one. -/
def splitRest : List Char → List (List Char)
  | [] => []
  | c :: rest => if c = ' ' then jsSplit ' ' rest else splitRest rest

end Avatar

theorem lookupLast_append {β : Type} (xs ys : List (String × β)) (k : String) :
    lookupLast (xs ++ ys) k =
      match lookupLast ys k with
      | some v => some v
      | none => lookupLast xs k := by
  induction xs with
  | nil =>
    cases h : lookupLast ys k <;> simp [lookupLast, h]
  | cons e rest ih =>
    simp only [List.cons_append, lookupLast, List.append_eq]
    rw [ih]
    cases h : lookupLast ys k <;> simp [h]

theorem lookupLast_map_replace (f : Fragment) (k : String) (v : CVal) :
    lookupLast (f.map (fun e => if e.1 = k then (k, v) else e)) k =
      if f.any (fun e => e.1 = k) then some v else none := by
  induction f with
  | nil => simp [lookupLast]
  | cons e rest ih =>
    simp only [List.map_cons, lookupLast, ih, List.any_cons]
    by_cases hrest : rest.any (fun e => e.1 = k)
    · simp [hrest]
    · by_cases hek : e.1 = k
      · simp [hrest, hek]
      · have hke : ¬ k = e.1 := fun h => hek h.symm
        simp [hrest, hek, hke]

theorem lookupLast_map_replace_ne (f : Fragment) (k k' : String) (v : CVal)
    (h : k' ≠ k) :
    lookupLast (f.map (fun e => if e.1 = k then (k, v) else e)) k' =
      lookupLast f k' := by
  induction f with
  | nil => simp [lookupLast]
  | cons e rest ih =>
    simp only [List.map_cons, lookupLast, ih]
    cases hr : lookupLast rest k' with
    | some w => simp
    | none =>
      by_cases hek : e.1 = k
      · have hne : ¬ k' = (k, v).1 := h
        rw [if_pos hek]
        have hne2 : ¬ k' = e.1 := fun hh => h (hh.trans hek)
        simp [hne, hne2]
      · rw [if_neg hek]

theorem lookupLast_setKey_self (f : Fragment) (k : String) (v : CVal) :
    lookupLast (setKey f k v) k = some v := by
  unfold setKey
  by_cases h : f.any (fun e => e.1 = k)
  · rw [if_pos h, lookupLast_map_replace, if_pos h]
  · rw [if_neg h, lookupLast_append]
    have hsingle : lookupLast [(k, v)] k = some v := by simp [lookupLast]
    rw [hsingle]

theorem lookupLast_setKey_ne (f : Fragment) (k k' : String) (v : CVal)
    (h : k' ≠ k) :
    lookupLast (setKey f k v) k' = lookupLast f k' := by
  unfold setKey
  by_cases hany : f.any (fun e => e.1 = k)
  · rw [if_pos hany, lookupLast_map_replace_ne _ _ _ _ h]
  · rw [if_neg hany, lookupLast_append]
    have hsingle : lookupLast [(k, v)] k' = none := by simp [lookupLast, h]
    rw [hsingle]

theorem lookupLast_mergeFrag (a b : Fragment) (k : String) :
    lookupLast (mergeFrag a b) k =
      match lookupLast b k with
      | some v => some v
      | none => lookupLast a k := by
  induction b generalizing a with
  | nil => simp [mergeFrag, lookupLast]
  | cons e rest ih =>
    show lookupLast (mergeFrag (setKey a e.1 e.2) rest) k = _
    rw [ih]
    simp only [lookupLast]
    cases hr : lookupLast rest k with
    | some w => simp
    | none =>
      by_cases hek : k = e.1
      · subst hek
        simp [lookupLast_setKey_self]
      · simp [hek, lookupLast_setKey_ne _ _ _ _ hek]

theorem StyledSystem.getLoop_none (ps : List String) :
    StyledSystem.getLoop none ps = none := by
  induction ps with
  | nil => rfl
  | cons p ps ih => simpa [StyledSystem.getLoop] using ih

theorem StyledSystem.getLoop_eq_findPath (ps : List String) (v : CVal) :
    StyledSystem.getLoop (some v) ps = StyledSystem.findPath v ps := by
  induction ps generalizing v with
  | nil => simp [StyledSystem.getLoop, StyledSystem.findPath]
  | cons p ps ih =>
    cases v with
    | obj l =>
      simp only [StyledSystem.getLoop, StyledSystem.truthy, if_true,
        StyledSystem.index, StyledSystem.findPath]
      cases h : lookupLast l p with
      | some w => simpa [h] using ih w
      | none => simp [h, StyledSystem.getLoop_none]
    | str s =>
      by_cases hs : (s ≠ "" : Bool)
      · simp [StyledSystem.getLoop, StyledSystem.truthy, hs,
          StyledSystem.index, StyledSystem.findPath, StyledSystem.getLoop_none]
      · simp [StyledSystem.getLoop, StyledSystem.truthy, hs,
          StyledSystem.index, StyledSystem.findPath, StyledSystem.getLoop_none]
    | num q =>
      by_cases hq : (q ≠ 0 : Bool)
      · simp [StyledSystem.getLoop, StyledSystem.truthy, hq,
          StyledSystem.index, StyledSystem.findPath, StyledSystem.getLoop_none]
      · simp [StyledSystem.getLoop, StyledSystem.truthy, hq,
          StyledSystem.index, StyledSystem.findPath, StyledSystem.getLoop_none]
    | undef =>
      simp [StyledSystem.getLoop, StyledSystem.truthy, StyledSystem.findPath,
        StyledSystem.getLoop_none]
    | null =>
      simp [StyledSystem.getLoop, StyledSystem.truthy, StyledSystem.findPath,
        StyledSystem.getLoop_none]

theorem Avatar.jsSplit_space_shape (name : List Char) :
    jsSplit ' ' name = Avatar.specFirstWord name :: Avatar.splitRest name := by
  induction name with
  | nil => rfl
  | cons c rest ih =>
    by_cases hc : c = ' '
    · simp [jsSplit, Avatar.splitRest, Avatar.specFirstWord, hc, ih]
    · simp [jsSplit, Avatar.splitRest, Avatar.specFirstWord, hc, ih]

theorem Avatar.splitRest_eq (name : List Char) :
    (Avatar.splitRest name = [] ∧ Avatar.specAfterFirstSpace name = []) ∨
      Avatar.splitRest name = jsSplit ' ' (Avatar.specAfterFirstSpace name) := by
  induction name with
  | nil => exact Or.inl ⟨rfl, rfl⟩
  | cons c rest ih =>
    by_cases hc : c = ' '
    · right
      simp [Avatar.splitRest, Avatar.specAfterFirstSpace, hc]
    · simpa [Avatar.splitRest, Avatar.specAfterFirstSpace, hc] using ih

section DisclosureClaims

open Disclosure

theorem trackPrev_isControlled (p : DisclosureHookProps) (a b : DisclosureState) :
    (trackPrev p a b).isControlled = b.isControlled := by
  unfold trackPrev
  split <;> rfl

theorem trackPrev_isOpenState (p : DisclosureHookProps) (a b : DisclosureState) :
    (trackPrev p a b).isOpenState = b.isOpenState := by
  unfold trackPrev
  split <;> rfl

theorem trackPrev_onOpenCalls (p : DisclosureHookProps) (a b : DisclosureState) :
    (trackPrev p a b).onOpenCalls = b.onOpenCalls := by
  unfold trackPrev
  split <;> rfl

theorem trackPrev_onCloseCalls (p : DisclosureHookProps) (a b : DisclosureState) :
    (trackPrev p a b).onCloseCalls = b.onCloseCalls := by
  unfold trackPrev
  split <;> rfl

theorem discStep_isControlled (p : DisclosureHookProps) (s : DisclosureState)
    (op : DiscOp) : (discStep p s op).isControlled = s.isControlled := by
  cases op <;>
    simp [discStep, onOpen, onClose, onToggle, trackPrev_isControlled] <;>
    split <;> simp [onOpen, onClose, trackPrev_isControlled]

theorem discStep_isOpenState_controlled (p : DisclosureHookProps)
    (s : DisclosureState) (op : DiscOp) (h : s.isControlled = true) :
    (discStep p s op).isOpenState = s.isOpenState := by
  cases op <;>
    simp [discStep, onOpen, onClose, onToggle, trackPrev_isOpenState, h] <;>
    split <;> simp [onOpen, onClose, trackPrev_isOpenState, h]

theorem foldl_discStep_controlled
    (steps : List (DisclosureHookProps × DiscOp)) :
    ∀ s : DisclosureState, s.isControlled = true →
      (steps.foldl (fun s pr => discStep pr.1 s pr.2) s).isControlled = true ∧
      (steps.foldl (fun s pr => discStep pr.1 s pr.2) s).isOpenState =
        s.isOpenState := by
  induction steps with
  | nil => intro s h; exact ⟨h, rfl⟩
  | cons pr rest ih =>
    intro s h
    have hc : (discStep pr.1 s pr.2).isControlled = true := by
      rw [discStep_isControlled]; exact h
    have hst := discStep_isOpenState_controlled pr.1 s pr.2 h
    rcases ih (discStep pr.1 s pr.2) hc with ⟨ihc, ihs⟩
    exact ⟨ihc, by rw [List.foldl_cons] at *; rw [ihs, hst]⟩

/-- C1: a disclosure constructed with an external `isOpen` value supplied
is controlled; after any subsequent sequence of `open`/`close`/`toggle`
operations — each possibly rendered with different, even absent, external
props — it is still flagged controlled and its internal open state has
never been written, i.e. it never behaves as uncontrolled. -/
theorem disclosure_controlled_never_flips (p₀ : DisclosureHookProps)
    (h : p₀.isOpen.isSome = true)
    (steps : List (DisclosureHookProps × DiscOp)) :
    (steps.foldl (fun s pr => discStep pr.1 s pr.2)
        (useDisclosureInit p₀)).isControlled = true ∧
    (steps.foldl (fun s pr => discStep pr.1 s pr.2)
        (useDisclosureInit p₀)).isOpenState =
      (useDisclosureInit p₀).isOpenState :=
  foldl_discStep_controlled steps (useDisclosureInit p₀)
    (by simp [useDisclosureInit, h])

/-- Witness for C1: a disclosure built controlled (`isOpen: true`) stays
controlled across a close under an absent prop, an open, and a toggle. -/
theorem disclosure_controlled_never_flips_witness :
    (([({ isOpen := none }, DiscOp.doClose),
       ({ isOpen := some true }, DiscOp.doOpen),
       ({ isOpen := none }, DiscOp.doToggle)] :
        List (DisclosureHookProps × DiscOp)).foldl
        (fun s pr => discStep pr.1 s pr.2)
        (useDisclosureInit { isOpen := some true })).isControlled = true ∧
    (([({ isOpen := none }, DiscOp.doClose),
       ({ isOpen := some true }, DiscOp.doOpen),
       ({ isOpen := none }, DiscOp.doToggle)] :
        List (DisclosureHookProps × DiscOp)).foldl
        (fun s pr => discStep pr.1 s pr.2)
        (useDisclosureInit { isOpen := some true })).isOpenState =
      (useDisclosureInit { isOpen := some true }).isOpenState :=
  disclosure_controlled_never_flips { isOpen := some true } (by decide) _

/-- C4: for an uncontrolled disclosure built from an empty config, the
initial `isOpen` is `false`; after `open()`, `isOpen` is `true` and
`prevIsOpen` is `false`; after a subsequent `close()`, `isOpen` is
`false` and `prevIsOpen` is `true`. -/
theorem disclosure_uncontrolled_trace :
    isOpenValue {} (useDisclosureInit {}) = false ∧
    isOpenValue {} (onOpen {} (useDisclosureInit {})) = true ∧
    prevIsOpen (onOpen {} (useDisclosureInit {})) = false ∧
    isOpenValue {} (onClose {} (onOpen {} (useDisclosureInit {}))) = false ∧
    prevIsOpen (onClose {} (onOpen {} (useDisclosureInit {}))) = true := by
  decide

theorem isOpenValue_of_controlled (p : DisclosureHookProps)
    (s : DisclosureState) (h : s.isControlled = true) :
    isOpenValue p s = p.isOpen.getD false := by
  simp [isOpenValue, h]

/-- C5: on a controlled disclosure, `close()` leaves the externally
visible `isOpen` unchanged while still invoking `onClose` when supplied;
`open()` symmetrically leaves `isOpen` unchanged and invokes `onOpen`;
`toggle()` calls `close()` when currently open and `open()` otherwise. -/
theorem disclosure_controlled_frame (p : DisclosureHookProps)
    (s : DisclosureState) (h : s.isControlled = true) :
    isOpenValue p (onClose p s) = isOpenValue p s ∧
    (p.hasOnClose = true → (onClose p s).onCloseCalls = s.onCloseCalls + 1) ∧
    isOpenValue p (onOpen p s) = isOpenValue p s ∧
    (p.hasOnOpen = true → (onOpen p s).onOpenCalls = s.onOpenCalls + 1) ∧
    onToggle p s = if isOpenValue p s then onClose p s else onOpen p s := by
  refine ⟨?_, ?_, ?_, ?_, rfl⟩
  · have hc : (onClose p s).isControlled = s.isControlled := by
      simp [onClose, trackPrev_isControlled]
    rw [isOpenValue_of_controlled p _ (by rw [hc]; exact h),
      isOpenValue_of_controlled p s h]
  · intro hcb
    simp [onClose, trackPrev_onCloseCalls, hcb]
  · have hc : (onOpen p s).isControlled = s.isControlled := by
      simp [onOpen, trackPrev_isControlled]
    rw [isOpenValue_of_controlled p _ (by rw [hc]; exact h),
      isOpenValue_of_controlled p s h]
  · intro hob
    simp [onOpen, trackPrev_onOpenCalls, hob]

/-- Witness for C5: a disclosure built with `isOpen: true` and both
callbacks keeps `isOpen` fixed under `close()` and `open()` while each
callback fires once, and `toggle()` dispatches on the current value. -/
theorem disclosure_controlled_frame_witness :
    isOpenValue { isOpen := some true, hasOnOpen := true, hasOnClose := true }
        (onClose { isOpen := some true, hasOnOpen := true, hasOnClose := true }
          (useDisclosureInit { isOpen := some true, hasOnOpen := true, hasOnClose := true })) =
      isOpenValue { isOpen := some true, hasOnOpen := true, hasOnClose := true }
        (useDisclosureInit { isOpen := some true, hasOnOpen := true, hasOnClose := true }) ∧
    (({ isOpen := some true, hasOnOpen := true, hasOnClose := true } :
        DisclosureHookProps).hasOnClose = true →
      (onClose { isOpen := some true, hasOnOpen := true, hasOnClose := true }
          (useDisclosureInit { isOpen := some true, hasOnOpen := true, hasOnClose := true })).onCloseCalls =
        (useDisclosureInit { isOpen := some true, hasOnOpen := true, hasOnClose := true }).onCloseCalls + 1) ∧
    isOpenValue { isOpen := some true, hasOnOpen := true, hasOnClose := true }
        (onOpen { isOpen := some true, hasOnOpen := true, hasOnClose := true }
          (useDisclosureInit { isOpen := some true, hasOnOpen := true, hasOnClose := true })) =
      isOpenValue { isOpen := some true, hasOnOpen := true, hasOnClose := true }
        (useDisclosureInit { isOpen := some true, hasOnOpen := true, hasOnClose := true }) ∧
    (({ isOpen := some true, hasOnOpen := true, hasOnClose := true } :
        DisclosureHookProps).hasOnOpen = true →
      (onOpen { isOpen := some true, hasOnOpen := true, hasOnClose := true }
          (useDisclosureInit { isOpen := some true, hasOnOpen := true, hasOnClose := true })).onOpenCalls =
        (useDisclosureInit { isOpen := some true, hasOnOpen := true, hasOnClose := true }).onOpenCalls + 1) ∧
    onToggle { isOpen := some true, hasOnOpen := true, hasOnClose := true }
        (useDisclosureInit { isOpen := some true, hasOnOpen := true, hasOnClose := true }) =
      (if isOpenValue { isOpen := some true, hasOnOpen := true, hasOnClose := true }
            (useDisclosureInit { isOpen := some true, hasOnOpen := true, hasOnClose := true }) then
         onClose { isOpen := some true, hasOnOpen := true, hasOnClose := true }
           (useDisclosureInit { isOpen := some true, hasOnOpen := true, hasOnClose := true })
       else
         onOpen { isOpen := some true, hasOnOpen := true, hasOnClose := true }
           (useDisclosureInit { isOpen := some true, hasOnOpen := true, hasOnClose := true })) :=
  disclosure_controlled_frame _ _ (by decide)

end DisclosureClaims

section StyleClaims

/-- C7: theme token lookup, as performed at the style functions' call
sites `get(theme.colors, c, c)`, is fail-soft — a dotted path that is
present in the theme table resolves to the table's value, and a path
that is absent resolves to the literal input string unchanged. -/
theorem token_lookup_fail_soft (colors : CVal) (path : String) :
    (∀ v : CVal,
        StyledSystem.findPath colors (pathParts path) = some v →
        v ≠ CVal.undef →
        StyledSystem.get colors path (CVal.str path) = v) ∧
    (StyledSystem.findPath colors (pathParts path) = none →
        StyledSystem.get colors path (CVal.str path) = CVal.str path) := by
  constructor
  · intro v hv hne
    unfold StyledSystem.get
    rw [StyledSystem.getLoop_eq_findPath, hv]
    cases v with
    | undef => exact absurd rfl hne
    | str s => rfl
    | num q => rfl
    | null => rfl
    | obj l => rfl
  · intro hnone
    unfold StyledSystem.get
    rw [StyledSystem.getLoop_eq_findPath, hnone]

/-- Witness for C7: in a theme with `gray.200 = "#EDF2F7"`, the present
path `"gray.200"` resolves to the table value and the absent raw CSS
value `"#fff"` round-trips unchanged. -/
theorem token_lookup_fail_soft_witness :
    StyledSystem.get (CVal.obj [("gray", CVal.obj [("200", CVal.str "#EDF2F7")])])
        "gray.200" (CVal.str "gray.200") = CVal.str "#EDF2F7" ∧
    StyledSystem.get (CVal.obj [("gray", CVal.obj [("200", CVal.str "#EDF2F7")])])
        "#fff" (CVal.str "#fff") = CVal.str "#fff" :=
  ⟨(token_lookup_fail_soft _ _).1 (CVal.str "#EDF2F7") rfl
      (fun h => CVal.noConfusion h),
   (token_lookup_fail_soft _ _).2 rfl⟩

/-- C9: in both style resolvers the variant fragment is merged last
(Button: base → disabled → focus → size → variant; Input: width/base →
size → variant), so any key the variant fragment carries survives into
the resolved style with the variant's value — size can never override
variant. -/
theorem variant_overrides_size_in_merge :
    (∀ (props : ButtonStyles.ButtonStyleProps) (k : String) (v : CVal),
        lookupLast (ButtonStyles.variantStyle props).1 k = some v →
        lookupLast (ButtonStyles.styledButtonStyle props) k = some v) ∧
    (∀ (props : InputStyles.InputStyleProps) (k : String) (v : CVal),
        lookupLast (InputStyles.variantProps props).1 k = some v →
        lookupLast (InputStyles.useInputStyle props) k = some v) := by
  constructor
  · intro props k v h
    unfold ButtonStyles.styledButtonStyle
    rw [lookupLast_mergeFrag, h]
  · intro props k v h
    unfold InputStyles.useInputStyle
    rw [lookupLast_mergeFrag, h]

/-- Witness for C9: for a link-variant Button, the variant's `padding: 0`
survives into the resolved style; for an outline-variant Input in light
mode, the variant's `bg: "white"` survives into the resolved style. -/
theorem variant_overrides_size_in_merge_witness :
    lookupLast
        (ButtonStyles.styledButtonStyle
          { theme := CVal.obj [], mode := "light", buttonColor := "teal",
            buttonVariant := "link", buttonSize := "md" }) "padding" =
      some (CVal.num 0) ∧
    lookupLast
        (InputStyles.useInputStyle
          { theme := ⟨CVal.obj []⟩, colorMode := .light,
            focusBorderColor := "blue.500", errorBorderColor := "red.500",
            variant := "outline" }) "bg" =
      some (CVal.str "white") :=
  ⟨variant_overrides_size_in_merge.1 _ "padding" (CVal.num 0) rfl,
   variant_overrides_size_in_merge.2 _ "bg" (CVal.str "white") rfl⟩

/-- Counterexample to C6 as stated: the Input style resolver's
`variantProps`, handed the unrecognized variant `"bogus"`, returns the
empty fragment with zero diagnostic emissions — not exactly one. -/
theorem input_unknown_variant_no_warning :
    InputStyles.variantProps
        { theme := ⟨CVal.obj []⟩, colorMode := .light,
          focusBorderColor := "blue.500", errorBorderColor := "red.500",
          variant := "bogus" } = ([], 0) ∧
    (InputStyles.variantProps
        { theme := ⟨CVal.obj []⟩, colorMode := .light,
          focusBorderColor := "blue.500", errorBorderColor := "red.500",
          variant := "bogus" }).2 ≠ 1 :=
  ⟨rfl, by decide⟩

/-- C6 (amended): an unrecognized variant key never throws and yields an
empty style fragment in both resolvers; the Button resolver emits exactly
one console warning, while the Input resolver emits none. -/
theorem unknown_variant_fragment_and_warnings :
    (∀ props : InputStyles.InputStyleProps,
        props.variant ≠ "flushed" → props.variant ≠ "unstyled" →
        props.variant ≠ "filled" → props.variant ≠ "outline" →
        InputStyles.variantProps props = ([], 0)) ∧
    (∀ props : ButtonStyles.ButtonStyleProps,
        props.buttonVariant ≠ "solid" → props.buttonVariant ≠ "outline" →
        props.buttonVariant ≠ "ghost" → props.buttonVariant ≠ "link" →
        props.buttonVariant ≠ "unstyled" →
        ButtonStyles.variantStyle props = ([], 1)) := by
  constructor
  · intro props h1 h2 h3 h4
    unfold InputStyles.variantProps
    split <;> simp_all
  · intro props h1 h2 h3 h4 h5
    unfold ButtonStyles.variantStyle
    split <;> simp_all

/-- Witness for C6 (amended) at the concrete unknown variant `"bogus"`. -/
theorem unknown_variant_fragment_and_warnings_witness :
    InputStyles.variantProps
        { theme := ⟨CVal.obj []⟩, colorMode := .dark,
          focusBorderColor := "blue.500", errorBorderColor := "red.500",
          variant := "bogus" } = ([], 0) ∧
    ButtonStyles.variantStyle
        { theme := CVal.obj [], mode := "dark", buttonColor := "gray",
          buttonVariant := "bogus", buttonSize := "sm" } = ([], 1) :=
  ⟨unknown_variant_fragment_and_warnings.1 _ (by decide) (by decide) (by decide)
      (by decide),
   unknown_variant_fragment_and_warnings.2 _ (by decide) (by decide) (by decide)
      (by decide) (by decide)⟩

/-- Counterexample to C8 as stated: for the unknown size `"bogus"`, the
Input size fragment is absent (`undefined`), which is not the `md`
fragment present in the size table. -/
theorem size_bogus_not_md_fragment :
    InputStyles.sizeProps
        { theme := ⟨CVal.obj []⟩, colorMode := .light,
          focusBorderColor := "blue.500", errorBorderColor := "red.500",
          variant := "outline", size := some "bogus" } = none ∧
    lookupLast InputStyles.inputSizes "md" ≠ none ∧
    InputStyles.sizeProps
        { theme := ⟨CVal.obj []⟩, colorMode := .light,
          focusBorderColor := "blue.500", errorBorderColor := "red.500",
          variant := "outline", size := some "bogus" } ≠
      lookupLast InputStyles.inputSizes "md" :=
  ⟨rfl, fun h => Option.noConfusion h, fun h => Option.noConfusion h⟩

/-- C8 (amended): when `size` is unset or not one of the known keys
`lg`/`md`/`sm`, the Input size fragment is absent (`undefined`, spreading
to nothing), not the `md` fragment; no default is applied by the
resolver. -/
theorem unknown_size_fragment_absent (props : InputStyles.InputStyleProps)
    (h1 : props.size ≠ some "lg") (h2 : props.size ≠ some "md")
    (h3 : props.size ≠ some "sm") :
    InputStyles.sizeProps props = none := by
  unfold InputStyles.sizeProps
  cases hs : props.size with
  | none => rfl
  | some s =>
    rw [hs] at h1 h2 h3
    simp only [ne_eq, Option.some.injEq] at h1 h2 h3
    simp [InputStyles.inputSizes, lookupLast, h1, h2, h3]

/-- Witness for C8 (amended) at the concrete unknown size `"bogus"`. -/
theorem unknown_size_fragment_absent_witness :
    InputStyles.sizeProps
        { theme := ⟨CVal.obj []⟩, colorMode := .light,
          focusBorderColor := "blue.500", errorBorderColor := "red.500",
          variant := "outline", size := some "bogus" } = none :=
  unknown_size_fragment_absent _ (by decide) (by decide) (by decide)

end StyleClaims

section AvatarClaims

open Avatar

/-- C10: `getInitials` is total on strings; when the first two
space-separated words are both non-empty it returns the first character
of each (further words ignored), and otherwise it returns the first
character of the text before the first space (empty when that text is
empty). -/
theorem getInitials_spec (name : List Char) :
    getInitials name =
      if specFirstWord name ≠ [] ∧ specSecondWord name ≠ [] then
        charAt0 (specFirstWord name) ++ charAt0 (specSecondWord name)
      else charAt0 (specFirstWord name) := by
  unfold getInitials
  rw [jsSplit_space_shape]
  rcases splitRest_eq name with ⟨h1, h2⟩ | h
  · rw [h1]
    simp [specSecondWord, h2, specFirstWord]
  · rw [h, jsSplit_space_shape]
    simp [specSecondWord]

end AvatarClaims

section TooltipClaims

open Tooltip Disclosure

/-- C2: with `openDelay > 0`, if the open trigger fires at time `t` and a
close trigger fires at some `t'` with `t ≤ t' < t + openDelay`, the
pending open is cleared by `closeWithDelay`, so `onOpen` is never
invoked and the tooltip never opens — even after every remaining timer
has fired. -/
theorem tooltip_close_before_openDelay_never_opens
    (openDelay closeDelay t tc : Nat) (h0 : 0 < openDelay) (h1 : t ≤ tc)
    (h2 : tc < t + openDelay) :
    (runTooltip
        { openDelay := openDelay, closeDelay := closeDelay,
          isDisabled := false, hasOnOpen := true, hasOnClose := true }
        [(t, TooltipEvent.openTrigger),
         (tc, TooltipEvent.closeTrigger)]).disc.onOpenCalls = 0 ∧
    isOpenValue
        (discProps
          { openDelay := openDelay, closeDelay := closeDelay,
            isDisabled := false, hasOnOpen := true, hasOnClose := true })
        (runTooltip
          { openDelay := openDelay, closeDelay := closeDelay,
            isDisabled := false, hasOnOpen := true, hasOnClose := true }
          [(t, TooltipEvent.openTrigger),
           (tc, TooltipEvent.closeTrigger)]).disc = false := by
  have hlate : ¬ (t + openDelay ≤ tc) := by omega
  simp [runTooltip, tooltipEventStep, fireDue, fireDueAux, pickMin,
    openWithDelay, closeWithDelay, useTooltipInit, fireAll, fireAllAux,
    fireTimer, discProps, useDisclosureInit, Disclosure.onClose,
    Disclosure.onOpen, trackPrev, isOpenValue, hlate]

/-- Witness for C2 at the spec's own example: `openDelay = 300`, open
trigger at `t = 0`, close trigger at `t = 100`. -/
theorem tooltip_close_before_openDelay_never_opens_witness :
    (runTooltip
        { openDelay := 300, closeDelay := 0, isDisabled := false,
          hasOnOpen := true, hasOnClose := true }
        [(0, TooltipEvent.openTrigger),
         (100, TooltipEvent.closeTrigger)]).disc.onOpenCalls = 0 ∧
    isOpenValue
        (discProps
          { openDelay := 300, closeDelay := 0, isDisabled := false,
            hasOnOpen := true, hasOnClose := true })
        (runTooltip
          { openDelay := 300, closeDelay := 0, isDisabled := false,
            hasOnOpen := true, hasOnClose := true }
          [(0, TooltipEvent.openTrigger),
           (100, TooltipEvent.closeTrigger)]).disc = false :=
  tooltip_close_before_openDelay_never_opens 300 0 0 100 (by decide)
    (by decide) (by decide)

/-- C3, evaluated at the failing input: tooltip initially open
(`defaultIsOpen: true`), `closeDelay = 100`, `openDelay = 0`; a close
trigger at `t = 0` schedules a close for `t = 100`; an open trigger at
`t = 10` schedules (and fires) an open — but `openWithDelay` contains no
`clearTimeout(exitTimeout.current)`, so the close scheduled before the
open trigger still fires at `t = 100`: `onClose` runs once afterwards and
the tooltip ends closed, contradicting "no previously scheduled close
ever fires". -/
theorem tooltip_pending_close_fires_after_open_trigger :
    (runTooltip
        { openDelay := 0, closeDelay := 100, isDisabled := false,
          defaultIsOpen := some true, hasOnOpen := true, hasOnClose := true }
        [(0, TooltipEvent.closeTrigger),
         (10, TooltipEvent.openTrigger)]).disc.onCloseCalls = 1 ∧
    (runTooltip
        { openDelay := 0, closeDelay := 100, isDisabled := false,
          defaultIsOpen := some true, hasOnOpen := true, hasOnClose := true }
        [(0, TooltipEvent.closeTrigger),
         (10, TooltipEvent.openTrigger)]).disc.onOpenCalls = 1 ∧
    isOpenValue
        (discProps
          { openDelay := 0, closeDelay := 100, isDisabled := false,
            defaultIsOpen := some true, hasOnOpen := true, hasOnClose := true })
        (runTooltip
          { openDelay := 0, closeDelay := 100, isDisabled := false,
            defaultIsOpen := some true, hasOnOpen := true, hasOnClose := true }
          [(0, TooltipEvent.closeTrigger),
           (10, TooltipEvent.openTrigger)]).disc = false := by
  decide

end TooltipClaims
